import Mathlib

/-!
Verification of the GreenPulse emissions trend-analysis engine
(`src/analysis/emissions_analysis.py`, class `EmissionsAnalyzer`).

The shallow embedding below translates the analyzer's four operations —
`calculate_trend_metrics`, `simple_forecast`, `identify_patterns` and the
assessment bucketing inside `generate_summary_report` — into pure Lean
functions over a series of (year, value) points.  Machine floats are
idealised as exact rationals; the IEEE special values that numpy/pandas
produce on division by zero (`inf`, `-inf`, `nan`) are modelled explicitly
by the carrier type `PFloat`, since several properties are precisely about
whether those values can reach the analyzer's output.
-/

/-- Result of a float computation: a finite rational, `inf`, `-inf`, or `nan`.
Mirrors the values a numpy float64 can take on the analyzer's code paths
(exact rational arithmetic stands in for finite floats). -/
inductive PFloat where
  | val (q : ℚ)
  | inf
  | ninf
  | nan
deriving DecidableEq

/-- Float division of finite values, with the numpy semantics on a zero
denominator: `x/0 = inf` for `x > 0`, `-inf` for `x < 0`, `nan` for `0/0`.
(The analyzer never produces a negative zero, so `0` always means `+0`.) -/
def qdiv (a b : ℚ) : PFloat :=
  if b = 0 then
    if 0 < a then .inf else if a < 0 then .ninf else .nan
  else .val (a / b)

/-- IEEE division on `PFloat` operands, as numpy evaluates it. -/
def pdiv : PFloat → PFloat → PFloat
  | .nan, _ => .nan
  | _, .nan => .nan
  | .inf, .inf => .nan
  | .inf, .ninf => .nan
  | .ninf, .inf => .nan
  | .ninf, .ninf => .nan
  | .inf, .val b => if b < 0 then .ninf else .inf
  | .ninf, .val b => if b < 0 then .inf else .ninf
  | .val _, .inf => .val 0
  | .val _, .ninf => .val 0
  | .val a, .val b => qdiv a b

/-- Multiplication by the positive constant 100 (`pct_change() * 100` etc.);
it preserves `inf`, `-inf` and `nan`. -/
def pscale100 : PFloat → PFloat
  | .val q => .val (q * 100)
  | x => x

/-- Strict `<` comparison on floats as Python evaluates it: any comparison
involving `nan` is false. -/
def pltb : PFloat → PFloat → Bool
  | .nan, _ => false
  | _, .nan => false
  | .val a, .val b => decide (a < b)
  | .val _, .inf => true
  | .inf, _ => false
  | .ninf, .ninf => false
  | .ninf, _ => true
  | .val _, .ninf => false

/-- One annual observation: the `year` and `emissions_MtCO2e` columns of the
input DataFrame. -/
structure Point where
  year : ℤ
  value : ℚ
deriving DecidableEq

/-- The emissions DataFrame held by the analyzer (`self.df`). -/
abbrev Series := List Point

/-- Ordering of rows by the `year` column, used by `df.sort_values('year')`. -/
def yearLE (p q : Point) : Prop := p.year ≤ q.year

instance : DecidableRel yearLE := fun p q =>
  (inferInstance : Decidable (p.year ≤ q.year))

instance : IsTotal Point yearLE := ⟨fun p q => Int.le_total p.year q.year⟩

instance : IsTrans Point yearLE := ⟨fun _ _ _ h₁ h₂ => le_trans h₁ h₂⟩

/-- Strict ordering of rows by year; with the data model's unique-years
invariant this is the ordering a sorted frame satisfies. -/
def yearLT (p q : Point) : Prop := p.year < q.year

instance : DecidableRel yearLT := fun p q =>
  (inferInstance : Decidable (p.year < q.year))

instance : IsAntisymm Point yearLT :=
  ⟨fun _ _ h₁ h₂ => absurd h₂ (lt_asymm h₁)⟩

/-- `df.sort_values('year')`: the rows reordered ascending by year.  The data
model guarantees unique years, under which every sort by year produces the
same list; a stable insertion sort is the concrete realisation. -/
def sortYear (s : Series) : Series := List.insertionSort yearLE s

/-- `df['year'].max()` over a series (junk value 0 on the empty frame, where
the Python code would fail instead). -/
def maxYear (s : Series) : ℤ :=
  match s with
  | [] => 0
  | p :: rest => rest.foldl (fun m q => max m q.year) p.year

/-- A `baseline` / `latest` / `peak` entry of the trend-metrics dictionary. -/
structure YearVal where
  year : ℤ
  emissions_mt : ℚ
deriving DecidableEq

/-- The `total_change` entry of the trend-metrics dictionary. -/
structure TotalChange where
  absolute_mt : ℚ
  percentage : PFloat
  years_span : ℤ
deriving DecidableEq

/-- The `recent_trend` entry of the trend-metrics dictionary. -/
structure RecentTrend10 where
  absolute_mt : ℚ
  percentage : PFloat
  years : ℤ
deriving DecidableEq

/-- The `average_annual` entry of the trend-metrics dictionary. -/
structure AverageAnnual where
  absolute_mt : PFloat
  percentage : PFloat
deriving DecidableEq

/-- The dictionary returned by `EmissionsAnalyzer.calculate_trend_metrics`. -/
structure TrendMetrics where
  baseline : YearVal
  latest : YearVal
  peak : YearVal
  total_change : TotalChange
  recent_trend : RecentTrend10
  average_annual : AverageAnnual
deriving DecidableEq

/-- Body of `calculate_trend_metrics` after the initial
`df = self.df.sort_values('year')` (lines 32-80 of
`emissions_analysis.py`); takes the already-sorted frame. -/
def calcTrendSorted (df : Series) : TrendMetrics :=
  let d : Point := ⟨0, 0⟩
  let baseline := df.headD d
  let latest := df.getLastD d
  let peak := df.foldl (fun best p => if best.value < p.value then p else best) (df.headD d)
  let total_change := latest.value - baseline.value
  let total_change_pct := pscale100 (qdiv total_change baseline.value)
  let recent := df.filter (fun p => decide (latest.year - 10 ≤ p.year))
  let recent_change := (recent.getLastD d).value - (recent.headD d).value
  let recent_change_pct := pscale100 (qdiv recent_change (recent.headD d).value)
  let years_span := latest.year - baseline.year
  let avg_annual_change := qdiv total_change (years_span : ℚ)
  let avg_annual_change_pct := pdiv total_change_pct (.val (years_span : ℚ))
  { baseline := ⟨baseline.year, baseline.value⟩
    latest := ⟨latest.year, latest.value⟩
    peak := ⟨peak.year, peak.value⟩
    total_change := ⟨total_change, total_change_pct, years_span⟩
    recent_trend := ⟨recent_change, recent_change_pct, 10⟩
    average_annual := ⟨avg_annual_change, avg_annual_change_pct⟩ }

/-- `EmissionsAnalyzer.calculate_trend_metrics` (lines 25-80). -/
def calculate_trend_metrics (s : Series) : TrendMetrics :=
  calcTrendSorted (sortYear s)

/-- The `type` column of the forecast frame. -/
inductive RowType where
  | historical
  | forecast
deriving DecidableEq

/-- One row of the frame returned by `simple_forecast`. -/
structure ForecastRow where
  year : ℤ
  emissions_MtCO2e : ℚ
  type : RowType
deriving DecidableEq

/-- Slope of the least-squares degree-1 fit (`np.polyfit(x, y, 1)[0]`).
For a window with at least two distinct years this is the unique
least-squares slope; on a degenerate window the rational division by zero
yields the junk value 0 (no claim exercises that case — numpy would return
a minimum-norm solution there). -/
def fitSlope (pts : Series) : ℚ :=
  let n : ℚ := pts.length
  let sx : ℚ := (pts.map (fun p => (p.year : ℚ))).sum
  let sy : ℚ := (pts.map Point.value).sum
  let sxy : ℚ := (pts.map (fun p => (p.year : ℚ) * p.value)).sum
  let sxx : ℚ := (pts.map (fun p => (p.year : ℚ) ^ 2)).sum
  (n * sxy - sx * sy) / (n * sxx - sx ^ 2)

/-- Intercept of the least-squares fit (`np.polyfit(x, y, 1)[1]`). -/
def fitIntercept (pts : Series) : ℚ :=
  let n : ℚ := pts.length
  let sx : ℚ := (pts.map (fun p => (p.year : ℚ))).sum
  let sy : ℚ := (pts.map Point.value).sum
  (sy - fitSlope pts * sx) / n

/-- `EmissionsAnalyzer.simple_forecast` (lines 82-131): sort, fit a line to
the trailing window `year >= max - 10`, emit `range(last+1, last+k+1)`
forecast rows clamped at zero, and prepend the historical rows. -/
def simple_forecast (s : Series) (years_ahead : ℤ) : List ForecastRow :=
  let df := sortYear s
  let last_year := maxYear df
  let recent := df.filter (fun p => decide (last_year - 10 ≤ p.year))
  let slope := fitSlope recent
  let intercept := fitIntercept recent
  let frows := (List.range years_ahead.toNat).map (fun i =>
    { year := last_year + 1 + (i : ℤ)
      emissions_MtCO2e := max 0 (slope * ((last_year + 1 + (i : ℤ) : ℤ) : ℚ) + intercept)
      type := RowType.forecast })
  df.map (fun p => { year := p.year, emissions_MtCO2e := p.value, type := RowType.historical })
    ++ frows

/-- One step of `pct_change() * 100` between consecutive values: with the
numpy semantics when the prior value is zero (`inf` / `-inf` / `nan`). -/
def pct_change1 (prev cur : ℚ) : PFloat :=
  if prev = 0 then
    if 0 < cur then .inf else if cur < 0 then .ninf else .nan
  else .val ((cur - prev) / prev * 100)

/-- The finite value of one year-over-year percentage step (the value
`pct_change1` yields whenever the prior value is nonzero). -/
def qchange (prev cur : ℚ) : ℚ := (cur - prev) / prev * 100

/-- The `yoy_change` column: `df['emissions_MtCO2e'].pct_change() * 100` on
the sorted frame.  The first entry is `NaN`; entry `i+1` is the percentage
change from value `i` to value `i+1`. -/
def yoyChanges (df : Series) : List PFloat :=
  (if (df.map Point.value).isEmpty then [] else [PFloat.nan])
    ++ List.zipWith pct_change1 (df.map Point.value) (df.map Point.value).tail

/-- Representation of a pandas `std()` result: either `NaN`, or the (exact)
variance `v` standing for the real number `sqrt v`.  Carrying the radicand
keeps the embedding executable; `StdVal.interp` gives the denoted real. -/
inductive StdVal where
  | nan
  | sqrtVar (variance : ℚ)
deriving DecidableEq

/-- The real number denoted by a `StdVal` (`none` for `NaN`). -/
noncomputable def StdVal.interp : StdVal → Option ℝ
  | .nan => none
  | .sqrtVar v => some (Real.sqrt v)

/-- Sample variance with the `N - 1` divisor, as `pandas.Series.std(ddof=1)`
computes before taking the square root. -/
def sampleVar (l : List ℚ) : ℚ :=
  ((l.map (fun x => (x - l.sum / (l.length : ℚ)) ^ 2)).sum) / ((l.length : ℚ) - 1)

/-- Helper projecting the finite entries of a float list. -/
def PFloat.toQ : PFloat → Option ℚ
  | .val q => some q
  | _ => none

/-- `pandas.Series.std()` (default `ddof=1`, `skipna=True`): drop `NaN`
entries; `NaN` when one or zero values remain or when an infinity is
present (the mean is then infinite and the squared deviations `NaN`);
otherwise the square root of the sample variance. -/
def pstd_ddof1 (l : List PFloat) : StdVal :=
  let ys := l.filter (fun c => c ≠ PFloat.nan)
  if ys.length ≤ 1 then .nan
  else if ys.any (fun c => decide (c = PFloat.inf) || decide (c = PFloat.ninf)) then .nan
  else .sqrtVar (sampleVar (ys.filterMap PFloat.toQ))

/-- Binary maximum on floats with `-inf < finite < inf` (the `nan` arms are
unreachable after `skipna` filtering; they mirror `fmax`). -/
def pmax2 : PFloat → PFloat → PFloat
  | .inf, _ => .inf
  | _, .inf => .inf
  | .nan, z => z
  | z, .nan => z
  | .ninf, z => z
  | z, .ninf => z
  | .val a, .val b => .val (max a b)

/-- Binary minimum on floats, dual to `pmax2`. -/
def pmin2 : PFloat → PFloat → PFloat
  | .ninf, _ => .ninf
  | _, .ninf => .ninf
  | .nan, z => z
  | z, .nan => z
  | .inf, z => z
  | z, .inf => z
  | .val a, .val b => .val (min a b)

/-- `pandas.Series.max()` (`skipna=True`): `NaN` entries are dropped, `NaN`
if nothing remains, otherwise the maximum with `-inf < finite < inf`. -/
def pmaxList (l : List PFloat) : PFloat :=
  match l.filter (fun c => c ≠ PFloat.nan) with
  | [] => .nan
  | h :: t => t.foldl pmax2 h

/-- `pandas.Series.min()` (`skipna=True`), dual to `pmaxList`. -/
def pminList (l : List PFloat) : PFloat :=
  match l.filter (fun c => c ≠ PFloat.nan) with
  | [] => .nan
  | h :: t => t.foldl pmin2 h

/-- `pandas.Series.mean()` (`skipna=True`): drop `NaN`s; `NaN` on an empty
remainder or on mixed infinities, the matching infinity if one sign of
infinity is present, otherwise the arithmetic mean. -/
def pmean (l : List PFloat) : PFloat :=
  let ys := l.filter (fun c => c ≠ PFloat.nan)
  if ys.isEmpty then .nan
  else if ys.any (fun c => decide (c = PFloat.inf)) &&
          ys.any (fun c => decide (c = PFloat.ninf)) then .nan
  else if ys.any (fun c => decide (c = PFloat.inf)) then .inf
  else if ys.any (fun c => decide (c = PFloat.ninf)) then .ninf
  else .val ((ys.filterMap PFloat.toQ).sum / (ys.length : ℚ))

/-- `Series.tail(n)`: the last `min(n, len)` entries. -/
def lastN (n : ℕ) (l : List PFloat) : List PFloat := l.drop (l.length - n)

/-- The streak-loop state of `identify_patterns` (lines 152-165):
running maxima and current streak lengths. -/
structure SState where
  consec_declines : ℕ
  consec_increases : ℕ
  cur_dec : ℕ
  cur_inc : ℕ
deriving DecidableEq

/-- One iteration of the streak loop: a strictly negative change extends the
decline streak and zeroes the increase streak, a strictly positive change
does the opposite; any other value (zero, and `nan` under float comparison)
falls through both branches and leaves the state unchanged. -/
def streak_step (st : SState) (change : PFloat) : SState :=
  if pltb change (.val 0) then
    let cd := st.cur_dec + 1
    ⟨max st.consec_declines cd, st.consec_increases, cd, 0⟩
  else if pltb (.val 0) change then
    let ci := st.cur_inc + 1
    ⟨st.consec_declines, max st.consec_increases ci, 0, ci⟩
  else st

/-- The streak loop `for change in df['yoy_change'].dropna(): ...` run from
the all-zero initial state (`dropna` removes `NaN` entries only). -/
def run_streaks (l : List PFloat) : SState :=
  (l.filter (fun c => c ≠ PFloat.nan)).foldl streak_step ⟨0, 0, 0, 0⟩

/-- The `volatility` entry of the pattern dictionary. -/
structure VolatilityStats where
  std_deviation_pct : StdVal
  max_annual_increase_pct : PFloat
  max_annual_decrease_pct : PFloat
deriving DecidableEq

/-- The `streaks` entry of the pattern dictionary. -/
structure StreakStats where
  longest_decline_years : ℕ
  longest_increase_years : ℕ
deriving DecidableEq

/-- The `recent_trend` entry of the pattern dictionary. -/
structure RecentTrendPat where
  last_5_years_avg_change : PFloat
  is_declining : Bool
deriving DecidableEq

/-- The dictionary returned by `EmissionsAnalyzer.identify_patterns`. -/
structure PatternProfile where
  volatility : VolatilityStats
  streaks : StreakStats
  recent_trend : RecentTrendPat
deriving DecidableEq

/-- Body of `identify_patterns` after `df = self.df.sort_values('year')`
(lines 140-181); takes the already-sorted frame. -/
def patternsSorted (df : Series) : PatternProfile :=
  let ch := yoyChanges df
  let st := run_streaks ch
  { volatility :=
      { std_deviation_pct := pstd_ddof1 ch
        max_annual_increase_pct := pmaxList ch
        max_annual_decrease_pct := pminList ch }
    streaks :=
      { longest_decline_years := st.consec_declines
        longest_increase_years := st.consec_increases }
    recent_trend :=
      { last_5_years_avg_change := pmean (lastN 5 ch)
        is_declining := pltb (pmean (lastN 3 ch)) (.val 0) } }

/-- `EmissionsAnalyzer.identify_patterns` (lines 133-181). -/
def identify_patterns (s : Series) : PatternProfile :=
  patternsSorted (sortYear s)

/-- The three assessment buckets emitted by `generate_summary_report`
(lines 216-221). -/
inductive Assessment where
  | strong_progress
  | moderate_progress
  | limited_progress
deriving DecidableEq

/-- The assessment branch of `generate_summary_report`:
`pct < -10` strong, `elif pct < 0` moderate, `else` limited, where `pct`
is `metrics['total_change']['percentage']`. -/
def summary_assessment (s : Series) : Assessment :=
  let m := calculate_trend_metrics s
  if pltb m.total_change.percentage (.val (-10)) then .strong_progress
  else if pltb m.total_change.percentage (.val 0) then .moderate_progress
  else .limited_progress

/-- `calculate_trend_metrics` as a state transformer on the analyzer's only
field `self.df`: the method reads `self.df.sort_values('year')` — a fresh
copy — and never reassigns `self.df`, so the state component is returned
unchanged. -/
def calculate_trend_metrics_m (st : Series) : TrendMetrics × Series :=
  (calculate_trend_metrics st, st)

/-- `identify_patterns` as a state transformer: the column assignments
`df['yoy_change'] = ...` (lines 143-144) write into the fresh frame
returned by `sort_values`, not into `self.df`, so the state is unchanged. -/
def identify_patterns_m (st : Series) : PatternProfile × Series :=
  (identify_patterns st, st)

/-- `simple_forecast` as a state transformer: it builds its output from
copies (`.copy()`, `pd.concat`) and never reassigns `self.df`. -/
def simple_forecast_m (years_ahead : ℤ) (st : Series) : List ForecastRow × Series :=
  (simple_forecast st years_ahead, st)

/-- Modelled from the spec: the year-over-year percentage changes that are
defined, i.e. `(v[i] - v[i-1]) / v[i-1] * 100` for each point after the
first, skipping any step whose prior value is zero (§4.2 of the spec). -/
def definedYoYChanges (df : Series) : List ℚ :=
  (List.zipWith (fun a b => if a = 0 then none else some ((b - a) / a * 100))
    (df.map Point.value) (df.map Point.value).tail).reduceOption

/-- Modelled from the spec: the streak rule of §4.2 in which a change of
exactly zero resets BOTH current streak counters (the code's loop instead
leaves them unchanged on a zero change).  Returns the pair
(longest decline, longest increase). -/
def spec_streaks (l : List ℚ) : ℕ × ℕ :=
  let st := l.foldl (fun (st : SState) c =>
    if c < 0 then
      let cd := st.cur_dec + 1
      ⟨max st.consec_declines cd, st.consec_increases, cd, 0⟩
    else if 0 < c then
      let ci := st.cur_inc + 1
      ⟨st.consec_declines, max st.consec_increases ci, 0, ci⟩
    else ⟨st.consec_declines, st.consec_increases, 0, 0⟩) ⟨0, 0, 0, 0⟩
  (st.consec_declines, st.consec_increases)

/-- Modelled from the spec: the sample standard deviation — `N - 1`
divisor — of a list of changes (§4.2: "sample standard deviation,
dividing by N−1"). -/
noncomputable def sampleStdSpec (l : List ℚ) : ℝ :=
  let v : ℚ := ((l.map (fun x => (x - l.sum / (l.length : ℚ)) ^ 2)).sum) / ((l.length : ℚ) - 1)
  Real.sqrt (v : ℝ)

/-! ### Helper lemmas about sorting -/

/-- The sorted frame is a permutation of the input frame. -/
theorem sortYear_perm (s : Series) : (sortYear s).Perm s :=
  List.perm_insertionSort yearLE s

/-- The sorted frame is sorted by year. -/
theorem sortYear_sorted (s : Series) : List.Sorted yearLE (sortYear s) :=
  List.sorted_insertionSort yearLE s

/-- Sorting preserves the number of rows. -/
theorem sortYear_length (s : Series) : (sortYear s).length = s.length :=
  (sortYear_perm s).length_eq

/-- A year-sorted list with pairwise-distinct years is strictly sorted. -/
theorem strict_of_sorted_nodup {l : Series} (hs : List.Sorted yearLE l)
    (hnd : (l.map Point.year).Nodup) : List.Pairwise yearLT l := by
  have hne : l.Pairwise (fun p q : Point => p.year ≠ q.year) := List.pairwise_map.mp hnd
  exact (List.Pairwise.and hs hne).imp (fun h => lt_of_le_of_ne h.1 h.2)

/-- With distinct years, the sorted frame is strictly sorted by year. -/
theorem sortYear_strict {s : Series} (hnd : (s.map Point.year).Nodup) :
    List.Pairwise yearLT (sortYear s) := by
  apply strict_of_sorted_nodup (sortYear_sorted s)
  exact (((sortYear_perm s).map Point.year).nodup_iff).mpr hnd

/-- With distinct years, every permutation of a series sorts to the same
frame — the key fact behind sort-order independence. -/
theorem sortYear_congr {l₁ l₂ : Series} (hperm : l₁.Perm l₂)
    (hnd : (l₁.map Point.year).Nodup) : sortYear l₁ = sortYear l₂ := by
  have hnd₂ : (l₂.map Point.year).Nodup := ((hperm.map Point.year).nodup_iff).mp hnd
  have hp : (sortYear l₁).Perm (sortYear l₂) :=
    ((sortYear_perm l₁).trans hperm).trans (sortYear_perm l₂).symm
  exact List.eq_of_perm_of_sorted hp (sortYear_strict hnd) (sortYear_strict hnd₂)

/-- A series already strictly sorted by year is left unchanged by the sort. -/
theorem sortYear_eq_self {s : Series} (hs : List.Pairwise yearLT s) : sortYear s = s :=
  List.Sorted.insertionSort_eq (hs.imp fun h => le_of_lt h)

/-! ### Helper lemmas about the pattern computations -/

/-- The year-over-year step of any adjacent pair appears in the
`zipWith pct_change1 vs vs.tail` column. -/
theorem mem_zipWith_adjacent (l : List ℚ) (a b : ℚ) (t : List ℚ) :
    pct_change1 a b ∈ List.zipWith pct_change1 (l ++ a :: b :: t) ((l ++ a :: b :: t).tail) := by
  induction l with
  | nil => simp [List.zipWith]
  | cons c l ih =>
    rcases hx : l ++ a :: b :: t with _ | ⟨x, xs⟩
    · simp at hx
    · rw [hx] at ih
      simp only [List.cons_append, List.tail_cons, hx, List.zipWith_cons_cons]
      simp only [List.tail_cons] at ih
      exact List.mem_cons_of_mem _ ih

/-- Folding `pmax2` over a list that contains `inf` yields `inf`. -/
theorem foldl_pmax2_inf (t : List PFloat) : ∀ h : PFloat,
    (h = PFloat.inf ∨ PFloat.inf ∈ t) → t.foldl pmax2 h = PFloat.inf := by
  induction t with
  | nil =>
    intro h hh
    rcases hh with rfl | hm
    · rfl
    · simp at hm
  | cons y t ih =>
    intro h hh
    rcases hh with rfl | hm
    · exact ih _ (Or.inl (by cases y <;> rfl))
    · rcases List.mem_cons.mp hm with rfl | hm'
      · exact ih _ (Or.inl (by cases h <;> rfl))
      · exact ih _ (Or.inr hm')

/-- `pandas.Series.max()` of a column that contains `inf` is `inf`. -/
theorem pmaxList_eq_inf {l : List PFloat} (hm : PFloat.inf ∈ l) :
    pmaxList l = PFloat.inf := by
  unfold pmaxList
  have hm' : PFloat.inf ∈ l.filter (fun c => c ≠ PFloat.nan) :=
    List.mem_filter.mpr ⟨hm, by decide⟩
  rcases hfil : l.filter (fun c => c ≠ PFloat.nan) with _ | ⟨h, t⟩
  · rw [hfil] at hm'; simp at hm'
  · rw [hfil] at hm'
    rcases List.mem_cons.mp hm' with rfl | hmt
    · exact foldl_pmax2_inf t _ (Or.inl rfl)
    · exact foldl_pmax2_inf t _ (Or.inr hmt)

/-- The streak loop ignores a change of exactly zero: neither the `< 0` nor
the `> 0` branch fires, and there is no else-branch. -/
theorem streak_step_zero (st : SState) : streak_step st (PFloat.val 0) = st := rfl

/-- Removing the zero changes from the column does not alter the streak
fold, because each zero change is a no-op of the loop body. -/
theorem filter_zero_foldl_streaks : ∀ (l : List PFloat) (st : SState),
    (((l.filter (fun c => c ≠ PFloat.val 0)).filter (fun c => c ≠ PFloat.nan)).foldl
        streak_step st)
      = (l.filter (fun c => c ≠ PFloat.nan)).foldl streak_step st := by
  intro l
  induction l with
  | nil => intro st; rfl
  | cons c l ih =>
    intro st
    by_cases h0 : c = PFloat.val 0
    · subst h0
      rw [List.filter_cons_of_neg (by decide),
        List.filter_cons_of_pos (by decide), List.foldl_cons, streak_step_zero]
      exact ih st
    · by_cases hn : c = PFloat.nan
      · subst hn
        rw [List.filter_cons_of_pos (by decide),
          List.filter_cons_of_neg (by decide),
          List.filter_cons_of_neg (by decide)]
        exact ih st
      · simp only [List.filter_cons, decide_eq_true h0, decide_eq_true hn, if_true,
          List.foldl_cons]
        exact ih (streak_step st c)

/-- `run_streaks` is blind to zero changes. -/
theorem run_streaks_filter_zero (l : List PFloat) :
    run_streaks (l.filter (fun c => c ≠ PFloat.val 0)) = run_streaks l :=
  filter_zero_foldl_streaks l ⟨0, 0, 0, 0⟩

/-! ### Helper lemmas for the volatility computation -/

/-- When every prior value actually used by the zip (the first
`l₂.length` entries of `l₁`) is nonzero, the `pct_change` column consists
of the finite `qchange` values. -/
theorem zipWith_pct_change1_eq : ∀ (l₁ l₂ : List ℚ),
    (∀ a ∈ l₁.take l₂.length, a ≠ 0) →
    List.zipWith pct_change1 l₁ l₂ = (List.zipWith qchange l₁ l₂).map PFloat.val := by
  intro l₁
  induction l₁ with
  | nil => intro l₂ _; simp
  | cons a l ih =>
    intro l₂ h
    cases l₂ with
    | nil => simp
    | cons b l₂ =>
      rw [List.length_cons, List.take_succ_cons] at h
      have ha : a ≠ 0 := h a (List.mem_cons_self a _)
      simp only [List.zipWith_cons_cons, List.map_cons, pct_change1, if_neg ha, qchange]
      exact congrArg _ (ih l₂ (fun x hx => h x (List.mem_cons_of_mem a hx)))

/-- When every prior value actually used by the zip is nonzero, the spec's
stepwise computation produces `some` of the same finite `qchange` values. -/
theorem zipWith_defined_eq : ∀ (l₁ l₂ : List ℚ),
    (∀ a ∈ l₁.take l₂.length, a ≠ 0) →
    List.zipWith (fun a b => if a = 0 then none else some ((b - a) / a * 100)) l₁ l₂
      = (List.zipWith qchange l₁ l₂).map some := by
  intro l₁
  induction l₁ with
  | nil => intro l₂ _; simp
  | cons a l ih =>
    intro l₂ h
    cases l₂ with
    | nil => simp
    | cons b l₂ =>
      rw [List.length_cons, List.take_succ_cons] at h
      have ha : a ≠ 0 := h a (List.mem_cons_self a _)
      simp only [List.zipWith_cons_cons, List.map_cons, if_neg ha, qchange]
      exact congrArg _ (ih l₂ (fun x hx => h x (List.mem_cons_of_mem a hx)))

/-- The priors consumed when zipping a list against its own tail are
exactly the entries before the last one. -/
theorem take_tail_length_eq_dropLast (l : List ℚ) : l.take l.tail.length = l.dropLast := by
  induction l with
  | nil => rfl
  | cons a l ih =>
    cases l with
    | nil => rfl
    | cons b t =>
      rw [List.tail_cons, List.length_cons, List.take_succ_cons, List.dropLast_cons₂]
      have ih' : (b :: t).take t.length = (b :: t).dropLast := by simpa using ih
      exact congrArg _ ih'

/-- Dropping the `none` entries of an all-`some` list recovers the list. -/
theorem reduceOption_map_some (l : List ℚ) : (l.map some).reduceOption = l := by
  induction l with
  | nil => rfl
  | cons a l ih => simp [List.reduceOption_cons_of_some, ih]

/-- A column of finite floats is unchanged by the `NaN` filter. -/
theorem filter_nonan_map_val (l : List ℚ) :
    (l.map PFloat.val).filter (fun c => c ≠ PFloat.nan) = l.map PFloat.val := by
  induction l with
  | nil => rfl
  | cons a l ih => simp [List.filter_cons, ih]

/-- A column of finite floats contains no infinities. -/
theorem any_inf_map_val (l : List ℚ) :
    (l.map PFloat.val).any (fun c => decide (c = PFloat.inf) || decide (c = PFloat.ninf))
      = false := by
  induction l with
  | nil => rfl
  | cons a l ih => simp [ih]

/-- Projecting the finite entries of a column of finite floats recovers the
underlying rationals. -/
theorem filterMap_toQ_map_val (l : List ℚ) :
    (l.map PFloat.val).filterMap PFloat.toQ = l := by
  induction l with
  | nil => rfl
  | cons a l ih => simp [List.filterMap_cons, PFloat.toQ, ih]

/-! ### Claim C1 -/

/-- Claim C1, counterexample: on the single-point series [(2020, 5.0)]
`calculate_trend_metrics` does not report any failure — it returns a
metrics record whose `years_span` is 0 and whose average-annual figures
are the float `NaN` of the 0/0 division, contradicting the claimed
`InsufficientHistory` error. -/
theorem c1_trend_metrics_single_point_cex :
    (calculate_trend_metrics [⟨2020, 5⟩]).total_change.years_span = 0 ∧
    (calculate_trend_metrics [⟨2020, 5⟩]).average_annual.absolute_mt = PFloat.nan ∧
    (calculate_trend_metrics [⟨2020, 5⟩]).average_annual.percentage = PFloat.nan := by
  refine ⟨by decide, ?_, ?_⟩ <;>
    norm_num [calculate_trend_metrics, calcTrendSorted, sortYear, List.insertionSort,
      List.orderedInsert, qdiv, pdiv, pscale100]

/-- Claim C1 (amended): for every series with exactly one point,
`calculate_trend_metrics` returns a metrics record — no failure is raised —
with `years_span = 0` and `NaN` in both average-annual fields (numpy's 0/0),
rather than the `InsufficientHistory` error the spec prescribes. -/
theorem c1_trend_metrics_single_point (y : ℤ) (v : ℚ) :
    (calculate_trend_metrics [⟨y, v⟩]).total_change.years_span = 0 ∧
    (calculate_trend_metrics [⟨y, v⟩]).average_annual.absolute_mt = PFloat.nan ∧
    (calculate_trend_metrics [⟨y, v⟩]).average_annual.percentage = PFloat.nan := by
  have hy : y - 10 ≤ y := by omega
  rcases eq_or_ne v 0 with rfl | hv
  · simp [calculate_trend_metrics, calcTrendSorted, sortYear, List.insertionSort,
      List.orderedInsert, qdiv, pdiv, pscale100, hy]
  · simp [calculate_trend_metrics, calcTrendSorted, sortYear, List.insertionSort,
      List.orderedInsert, qdiv, pdiv, pscale100, hy, hv]

/-! ### Claim C2 -/

/-- Claim C2, counterexample: on [(2020, 0.0), (2021, 5.0)] the
`identify_patterns` call does not raise `DivisionByZero`; the returned
PatternProfile carries the float `inf` as its maximum annual increase. -/
theorem c2_patterns_zero_prior_inf_cex :
    (identify_patterns [⟨2020, 0⟩, ⟨2021, 5⟩]).volatility.max_annual_increase_pct
      = PFloat.inf := by decide

/-- Claim C2 (amended): whenever a zero-valued point is immediately followed
in year-sorted order by a strictly positive point, `identify_patterns`
raises nothing and returns a PatternProfile whose
`max_annual_increase_pct` is the float `+inf` produced by the
zero-denominator `pct_change` step. -/
theorem c2_patterns_zero_prior_inf (s : Series)
    (h : ∃ pre p q post, sortYear s = pre ++ p :: q :: post ∧
      p.value = 0 ∧ 0 < q.value) :
    (identify_patterns s).volatility.max_annual_increase_pct = PFloat.inf := by
  obtain ⟨pre, p, q, post, hsort, hp0, hqpos⟩ := h
  have hrw : (identify_patterns s).volatility.max_annual_increase_pct
      = pmaxList (yoyChanges (pre ++ p :: q :: post)) := by
    unfold identify_patterns
    rw [hsort]
    rfl
  rw [hrw]
  apply pmaxList_eq_inf
  unfold yoyChanges
  apply List.mem_append_right
  have hvs : (pre ++ p :: q :: post).map Point.value
      = pre.map Point.value ++ p.value :: q.value :: post.map Point.value := by
    simp
  rw [hvs]
  have hmem := mem_zipWith_adjacent (pre.map Point.value) p.value q.value
    (post.map Point.value)
  have hstep : pct_change1 p.value q.value = PFloat.inf := by
    rw [hp0]
    unfold pct_change1
    rw [if_pos rfl, if_pos hqpos]
  rwa [hstep] at hmem

/-- Claim C2, witness for the amended theorem at a concrete input. -/
theorem c2_patterns_zero_prior_inf_witness :
    (∃ pre p q post, sortYear [(⟨2000, 0⟩ : Point), ⟨2001, 3⟩] = pre ++ p :: q :: post ∧
        p.value = 0 ∧ 0 < q.value) ∧
    (identify_patterns [⟨2000, 0⟩, ⟨2001, 3⟩]).volatility.max_annual_increase_pct
      = PFloat.inf :=
  ⟨⟨[], ⟨2000, 0⟩, ⟨2001, 3⟩, [], by decide, rfl, by decide⟩,
   c2_patterns_zero_prior_inf _ ⟨[], ⟨2000, 0⟩, ⟨2001, 3⟩, [], by decide, rfl, by decide⟩⟩

/-! ### Claim C3 -/

/-- Claim C3, counterexample: on the series with year-over-year changes
[-50, 0, -50] the code reports a longest decline streak of 2 — the zero
change did NOT reset the running decline counter — while the spec's
reset-on-zero rule yields 1. -/
theorem c3_streaks_zero_change_cex :
    (identify_patterns [⟨2000, 4⟩, ⟨2001, 2⟩, ⟨2002, 2⟩, ⟨2003, 1⟩]).streaks.longest_decline_years
      = 2 ∧
    (spec_streaks (definedYoYChanges
        (sortYear [⟨2000, 4⟩, ⟨2001, 2⟩, ⟨2002, 2⟩, ⟨2003, 1⟩]))).1 = 1 := by
  constructor
  · norm_num [identify_patterns, patternsSorted, sortYear, List.insertionSort,
      List.orderedInsert, yearLE, yoyChanges, pct_change1]
    decide
  · norm_num [spec_streaks, definedYoYChanges, sortYear, List.insertionSort,
      List.orderedInsert, yearLE]

/-- Claim C3 (amended): the streak loop of `identify_patterns` has no
else-branch, so a change of exactly zero leaves both current streak
counters unchanged instead of resetting them: the reported streaks equal
those of the change sequence with every zero change deleted, and maximal
streaks may therefore span zero changes. -/
theorem c3_streaks_zero_change_transparent (s : Series) :
    (identify_patterns s).streaks.longest_decline_years
      = (run_streaks ((yoyChanges (sortYear s)).filter
          (fun c => c ≠ PFloat.val 0))).consec_declines ∧
    (identify_patterns s).streaks.longest_increase_years
      = (run_streaks ((yoyChanges (sortYear s)).filter
          (fun c => c ≠ PFloat.val 0))).consec_increases := by
  have h := run_streaks_filter_zero (yoyChanges (sortYear s))
  exact ⟨by rw [h]; rfl, by rw [h]; rfl⟩

/-! ### Claim C10 -/

/-- Claim C10, counterexample: with the negative horizon -3 the code does
not report `InvalidForecastHorizon`; it silently returns just the
historical rows. -/
theorem c10_forecast_nonpos_horizon_cex :
    simple_forecast [(⟨2010, 1⟩ : Point), ⟨2011, 2⟩] (-3)
      = [⟨2010, 1, RowType.historical⟩, ⟨2011, 2, RowType.historical⟩] := by decide

/-- Claim C10 (amended): for every nonempty series and every
`years_ahead ≤ 0`, `simple_forecast` raises nothing: `range` is empty, so
the result is exactly the historical rows of the sorted series with no
forecast rows, instead of the `InvalidForecastHorizon` error the spec
prescribes. -/
theorem c10_forecast_nonpos_horizon (s : Series) (k : ℤ)
    (_hne : s ≠ []) (hk : k ≤ 0) :
    simple_forecast s k
      = (sortYear s).map (fun p => ⟨p.year, p.value, RowType.historical⟩) := by
  have h0 : k.toNat = 0 := Int.toNat_of_nonpos hk
  simp [simple_forecast, h0]

/-- Claim C10, witness for the amended theorem at a concrete input. -/
theorem c10_forecast_nonpos_horizon_witness :
    ([(⟨2020, 5⟩ : Point), ⟨2021, 6⟩] ≠ []) ∧ ((0 : ℤ) ≤ 0) ∧
    simple_forecast [(⟨2020, 5⟩ : Point), ⟨2021, 6⟩] 0
      = (sortYear [(⟨2020, 5⟩ : Point), ⟨2021, 6⟩]).map
          (fun p => ⟨p.year, p.value, RowType.historical⟩) :=
  ⟨by decide, by decide, c10_forecast_nonpos_horizon _ 0 (by decide) (by decide)⟩

/-! ### Claim C4 -/

/-- Claim C4: for every chronologically sorted nonempty series and every
horizon k ≥ 1, `simple_forecast` returns `len(series) + k` rows: the first
`len(series)` rows are the input points tagged `historical`, and the last
`k` rows are tagged `forecast` with consecutive strictly increasing years
`max_year + 1, ..., max_year + k`. -/
theorem c4_forecast_tagging (s : Series) (k : ℤ)
    (hs : List.Pairwise yearLT s) (_hne : s ≠ []) (_hk : 1 ≤ k) :
    (simple_forecast s k).length = s.length + k.toNat ∧
    (simple_forecast s k).take s.length
      = s.map (fun p => ⟨p.year, p.value, RowType.historical⟩) ∧
    ((simple_forecast s k).drop s.length).map ForecastRow.year
      = (List.range k.toNat).map (fun i : ℕ => maxYear s + 1 + (i : ℤ)) ∧
    ∀ r ∈ (simple_forecast s k).drop s.length, r.type = RowType.forecast := by
  have hfix : sortYear s = s := sortYear_eq_self hs
  have hlen : s.length
      = (s.map (fun p => (⟨p.year, p.value, RowType.historical⟩ : ForecastRow))).length := by
    rw [List.length_map]
  refine ⟨?_, ?_, ?_, ?_⟩
  · simp [simple_forecast, hfix]
  · rw [simple_forecast, hfix, hlen, List.take_left]
  · rw [simple_forecast, hfix, hlen, List.drop_left, List.map_map]
    rfl
  · intro r hr
    rw [simple_forecast, hfix, hlen, List.drop_left] at hr
    obtain ⟨i, _, rfl⟩ := List.mem_map.mp hr
    rfl

/-- Claim C4, witness at a concrete sorted series and k = 2. -/
theorem c4_forecast_tagging_witness :
    List.Pairwise yearLT [(⟨2020, 10⟩ : Point), ⟨2021, 5⟩, ⟨2022, (1 : ℚ)/2⟩] ∧
    ([(⟨2020, 10⟩ : Point), ⟨2021, 5⟩, ⟨2022, (1 : ℚ)/2⟩] ≠ []) ∧
    ((1 : ℤ) ≤ 2) ∧
    (simple_forecast [(⟨2020, 10⟩ : Point), ⟨2021, 5⟩, ⟨2022, (1 : ℚ)/2⟩] 2).length
      = [(⟨2020, 10⟩ : Point), ⟨2021, 5⟩, ⟨2022, (1 : ℚ)/2⟩].length + (2 : ℤ).toNat :=
  ⟨by decide, by decide, by decide,
   (c4_forecast_tagging _ 2 (by decide) (by decide) (by decide)).1⟩

/-! ### Claim C5 -/

/-- Claim C5: for every input series and horizon, every `forecast`-tagged
row of `simple_forecast` has a value ≥ 0 — the line's prediction is clamped
at zero by `max(0, emissions)`. -/
theorem c5_forecast_nonneg (s : Series) (k : ℤ) (r : ForecastRow)
    (hr : r ∈ simple_forecast s k) (ht : r.type = RowType.forecast) :
    0 ≤ r.emissions_MtCO2e := by
  simp only [simple_forecast] at hr
  rcases List.mem_append.mp hr with hl | hrt
  · obtain ⟨p, _, rfl⟩ := List.mem_map.mp hl
    simp at ht
  · obtain ⟨i, _, rfl⟩ := List.mem_map.mp hrt
    exact le_max_left 0 _

/-- Claim C5, witness on the spec's own clamping example: forecasting
[(2020,10),(2021,5),(2022,0.5)] three years ahead, the 2023 row is a
forecast row clamped to value 0. -/
theorem c5_forecast_nonneg_witness :
    ((⟨2023, 0, RowType.forecast⟩ : ForecastRow) ∈
        simple_forecast [⟨2020, 10⟩, ⟨2021, 5⟩, ⟨2022, (1 : ℚ)/2⟩] 3) ∧
    (⟨2023, 0, RowType.forecast⟩ : ForecastRow).type = RowType.forecast ∧
    0 ≤ (⟨2023, 0, RowType.forecast⟩ : ForecastRow).emissions_MtCO2e := by
  have hmem : (⟨2023, 0, RowType.forecast⟩ : ForecastRow) ∈
      simple_forecast [⟨2020, 10⟩, ⟨2021, 5⟩, ⟨2022, (1 : ℚ)/2⟩] 3 := by
    norm_num [simple_forecast, sortYear, List.insertionSort, List.orderedInsert, yearLE,
      maxYear, fitSlope, fitIntercept, List.range_succ]
    exact ⟨0, by norm_num, rfl, by norm_num⟩
  exact ⟨hmem, rfl, c5_forecast_nonneg _ 3 _ hmem rfl⟩

/-! ### Claim C6 -/

/-- Claim C6: whenever the total-change percentage is a finite number p,
`generate_summary_report` buckets the overall assessment exactly by
p < -10 (strong progress), -10 ≤ p < 0 (moderate progress), and 0 ≤ p
(limited progress), with precisely these boundary inclusivities. -/
theorem c6_summary_assessment_buckets (s : Series) (p : ℚ)
    (hp : (calculate_trend_metrics s).total_change.percentage = PFloat.val p) :
    (summary_assessment s = Assessment.strong_progress ↔ p < -10) ∧
    (summary_assessment s = Assessment.moderate_progress ↔ -10 ≤ p ∧ p < 0) ∧
    (summary_assessment s = Assessment.limited_progress ↔ 0 ≤ p) := by
  have hb : summary_assessment s = (if p < -10 then Assessment.strong_progress
      else if p < 0 then Assessment.moderate_progress else Assessment.limited_progress) := by
    simp only [summary_assessment, hp, pltb]
    by_cases h1 : p < -10 <;> by_cases h2 : p < 0 <;> simp [h1, h2]
  rw [hb]
  split_ifs with h1 h2
  · exact ⟨iff_of_true rfl h1,
      iff_of_false (by decide) (fun hc => by linarith [hc.1]),
      iff_of_false (by decide) (fun hc => by linarith)⟩
  · exact ⟨iff_of_false (by decide) h1,
      iff_of_true rfl ⟨not_lt.mp h1, h2⟩,
      iff_of_false (by decide) (fun hc => by linarith)⟩
  · exact ⟨iff_of_false (by decide) h1,
      iff_of_false (by decide) (fun hc => absurd hc.2 h2),
      iff_of_true rfl (not_lt.mp h2)⟩

/-- Claim C6, witness: the series [(2000,50),(2001,40)] has total change
-20%, which is classified as strong progress. -/
theorem c6_summary_assessment_buckets_witness :
    (calculate_trend_metrics [(⟨2000, 50⟩ : Point), ⟨2001, 40⟩]).total_change.percentage
      = PFloat.val (-20) ∧
    summary_assessment [(⟨2000, 50⟩ : Point), ⟨2001, 40⟩] = Assessment.strong_progress := by
  have hp : (calculate_trend_metrics [(⟨2000, 50⟩ : Point), ⟨2001, 40⟩]).total_change.percentage
      = PFloat.val (-20) := by
    norm_num [calculate_trend_metrics, calcTrendSorted, sortYear, List.insertionSort,
      List.orderedInsert, yearLE, qdiv, pdiv, pscale100]
  exact ⟨hp, (c6_summary_assessment_buckets _ _ hp).1.mpr (by norm_num)⟩

/-! ### Claim C7 -/

/-- Claim C7: each operation first sorts the frame by year, so on a series
with pairwise-distinct years every permutation of the input rows produces
identical trend metrics, pattern profile, and forecast frame. -/
theorem c7_sort_independence (l₁ l₂ : Series) (k : ℤ)
    (hperm : l₁.Perm l₂) (hnd : (l₁.map Point.year).Nodup) :
    calculate_trend_metrics l₁ = calculate_trend_metrics l₂ ∧
    identify_patterns l₁ = identify_patterns l₂ ∧
    simple_forecast l₁ k = simple_forecast l₂ k := by
  have h := sortYear_congr hperm hnd
  refine ⟨?_, ?_, ?_⟩
  · unfold calculate_trend_metrics; rw [h]
  · unfold identify_patterns; rw [h]
  · unfold simple_forecast; rw [h]

/-- Claim C7, witness: a reversed three-point series gives the same pattern
profile as the ascending one. -/
theorem c7_sort_independence_witness :
    ([(⟨2002, 4⟩ : Point), ⟨2001, 2⟩, ⟨2000, 1⟩].Perm [⟨2000, 1⟩, ⟨2001, 2⟩, ⟨2002, 4⟩]) ∧
    (([(⟨2002, 4⟩ : Point), ⟨2001, 2⟩, ⟨2000, 1⟩].map Point.year).Nodup) ∧
    identify_patterns [(⟨2002, 4⟩ : Point), ⟨2001, 2⟩, ⟨2000, 1⟩]
      = identify_patterns [⟨2000, 1⟩, ⟨2001, 2⟩, ⟨2002, 4⟩] :=
  ⟨by decide, by decide, (c7_sort_independence _ _ 0 (by decide) (by decide)).2.1⟩

/-! ### Claim C8 -/

/-- Claim C8: no operation mutates the analyzer's stored frame — each method
works on the fresh frame returned by `sort_values` and never reassigns
`self.df` — so running any operation twice on the same state returns
identical results and leaves the state exactly as it was. -/
theorem c8_analysis_stateless (st : Series) (k : ℤ) :
    (calculate_trend_metrics_m st).2 = st ∧
    (calculate_trend_metrics_m ((calculate_trend_metrics_m st).2)).1
      = (calculate_trend_metrics_m st).1 ∧
    (identify_patterns_m st).2 = st ∧
    (identify_patterns_m ((identify_patterns_m st).2)).1 = (identify_patterns_m st).1 ∧
    (simple_forecast_m k st).2 = st ∧
    (simple_forecast_m k ((simple_forecast_m k st).2)).1 = (simple_forecast_m k st).1 :=
  ⟨rfl, rfl, rfl, rfl, rfl, rfl⟩

/-! ### Claim C9 -/

/-- Claim C9, counterexample: on [(2000,1),(2001,0),(2002,5),(2003,7)] —
four points, two defined year-over-year changes [-100, 40] — pandas puts
`inf` into the `pct_change` column (prior value 0) and `Series.std()`
therefore returns `NaN`, not the sample standard deviation of the defined
changes; the claim fails on this at-least-three-point series. -/
theorem c9_volatility_is_sample_std_cex :
    StdVal.interp ((identify_patterns
        [⟨2000, 1⟩, ⟨2001, 0⟩, ⟨2002, 5⟩, ⟨2003, 7⟩]).volatility.std_deviation_pct)
      ≠ some (sampleStdSpec (definedYoYChanges
          (sortYear [⟨2000, 1⟩, ⟨2001, 0⟩, ⟨2002, 5⟩, ⟨2003, 7⟩]))) ∧
    (identify_patterns
        [⟨2000, 1⟩, ⟨2001, 0⟩, ⟨2002, 5⟩, ⟨2003, 7⟩]).volatility.std_deviation_pct
      = StdVal.nan ∧
    definedYoYChanges (sortYear [⟨2000, 1⟩, ⟨2001, 0⟩, ⟨2002, 5⟩, ⟨2003, 7⟩])
      = [-100, 40] := by
  have hnan : (identify_patterns
      [⟨2000, 1⟩, ⟨2001, 0⟩, ⟨2002, 5⟩, ⟨2003, 7⟩]).volatility.std_deviation_pct
      = StdVal.nan := by decide
  refine ⟨?_, hnan, ?_⟩
  · rw [hnan]
    simp [StdVal.interp]
  · norm_num [definedYoYChanges, sortYear, List.insertionSort, List.orderedInsert, yearLE,
      List.reduceOption_cons_of_some, List.reduceOption_cons_of_none]

/-- Claim C9 (amended): for a series of at least three points in which
every value before the chronologically last one is nonzero (so every
year-over-year change is defined, hence at least two of them), the
volatility reported by `identify_patterns` denotes exactly the sample
standard deviation — the N−1 divisor of `pandas.Series.std()` — of the
defined year-over-year percentage changes.  (When an earlier value is
zero, pandas instead propagates `inf` and reports `NaN`, as the
counterexample shows.) -/
theorem c9_volatility_is_sample_std (s : Series)
    (hlen : 3 ≤ s.length)
    (hnz : ∀ a ∈ ((sortYear s).map Point.value).dropLast, a ≠ 0) :
    StdVal.interp ((identify_patterns s).volatility.std_deviation_pct)
      = some (sampleStdSpec (definedYoYChanges (sortYear s))) := by
  have hvs : ∀ a ∈ ((sortYear s).map Point.value).take
      ((sortYear s).map Point.value).tail.length, a ≠ 0 := by
    intro a ha
    apply hnz
    rw [← take_tail_length_eq_dropLast]
    exact ha
  have hlenv : ((sortYear s).map Point.value).length = s.length := by
    rw [List.length_map, sortYear_length]
  have hne : ((sortYear s).map Point.value).isEmpty = false := by
    rcases h : (sortYear s).map Point.value with _ | ⟨v, vs⟩
    · rw [h] at hlenv; simp at hlenv; omega
    · rfl
  have hch : yoyChanges (sortYear s)
      = PFloat.nan :: (List.zipWith qchange ((sortYear s).map Point.value)
          ((sortYear s).map Point.value).tail).map PFloat.val := by
    unfold yoyChanges
    rw [hne, zipWith_pct_change1_eq _ _ hvs]
    rfl
  have hqlen : (List.zipWith qchange ((sortYear s).map Point.value)
      ((sortYear s).map Point.value).tail).length = s.length - 1 := by
    rw [List.length_zipWith, List.length_tail, hlenv]
    omega
  have hstd : pstd_ddof1 (yoyChanges (sortYear s))
      = StdVal.sqrtVar (sampleVar (List.zipWith qchange ((sortYear s).map Point.value)
          ((sortYear s).map Point.value).tail)) := by
    rw [hch]
    unfold pstd_ddof1
    rw [List.filter_cons_of_neg (by decide), filter_nonan_map_val,
      if_neg (by rw [List.length_map, hqlen]; omega),
      if_neg (by rw [any_inf_map_val]; exact Bool.false_ne_true),
      filterMap_toQ_map_val]
  have hdef : definedYoYChanges (sortYear s)
      = List.zipWith qchange ((sortYear s).map Point.value)
          ((sortYear s).map Point.value).tail := by
    unfold definedYoYChanges
    rw [zipWith_defined_eq _ _ hvs, reduceOption_map_some]
  have hproj : (identify_patterns s).volatility.std_deviation_pct
      = pstd_ddof1 (yoyChanges (sortYear s)) := rfl
  rw [hproj, hstd, hdef]
  rfl

/-- Claim C9, witness for the amended theorem at [(2000,1),(2001,2),(2002,0)]:
a final zero value is allowed, since only prior values feed the changes. -/
theorem c9_volatility_is_sample_std_witness :
    (3 ≤ ([(⟨2000, 1⟩ : Point), ⟨2001, 2⟩, ⟨2002, 0⟩] : Series).length) ∧
    (∀ a ∈ ((sortYear [(⟨2000, 1⟩ : Point), ⟨2001, 2⟩, ⟨2002, 0⟩]).map Point.value).dropLast,
        a ≠ 0) ∧
    StdVal.interp ((identify_patterns
        [(⟨2000, 1⟩ : Point), ⟨2001, 2⟩, ⟨2002, 0⟩]).volatility.std_deviation_pct)
      = some (sampleStdSpec (definedYoYChanges
          (sortYear [(⟨2000, 1⟩ : Point), ⟨2001, 2⟩, ⟨2002, 0⟩]))) :=
  ⟨by decide, by decide, c9_volatility_is_sample_std _ (by decide) (by decide)⟩
